import Mathlib

/-!
Verification of the OCM Hub confluence-detection pipeline.

This file shallowly embeds the core of the repository in Lean 4:

* `src/services/pattern_detector.py` — the bounded per-token transaction
  ledger (Redis LPUSH / LTRIM / EXPIRE and the windowed read), and the
  net-flow confluence, sequence/follow-through and diversity detectors;
* `src/services/alpha_tracker.py` — the Telegram rate limiter
  (`TelegramRateLimiter.wait_if_needed`), the webhook normalizer
  (`parse_helius_webhook`), and the ledger gate of
  `_process_single_transaction`.

Time is modelled as rational seconds, money as rational dollars; Python
dictionaries become structures, `dict.get` with a possibly absent key
becomes `Option`, and an exception raised while processing a record is
made explicit in the return type of the loop that the corresponding
`try`/`except` block encloses.
-/

namespace OCMHub

/-- One entry of a token's transaction ledger, as stored by
`PatternDetector._store_transaction` (the JSON object pushed onto the
Redis list `token_transactions:<token>:list`). -/
structure StoredTx where
  timestamp : ℚ
  wallet : String
  action : String
  amount_usd : ℚ
  trader_type : String
  token_symbol : String
  market_cap : ℚ
  deriving DecidableEq, Repr

/-- The per-token ledger: the Redis list, head = most recently pushed
entry (LPUSH prepends). -/
abbrev Ledger := List StoredTx

/-- `PatternDetector._store_transaction`, Redis path: `LPUSH` the new
entry, `LTRIM key 0 199` (keep the 200 newest), `EXPIRE key 3600`.
Returns the new list together with the TTL in seconds that the call
sets on the key. -/
def storeTransaction (ledger : Ledger) (tx : StoredTx) : Ledger × ℕ :=
  (List.take 200 (tx :: ledger), 3600)

/-- The TTL in seconds that every `_store_transaction` call sets on the
ledger key (`self.cache.redis.expire(list_key, 3600)`). -/
def ledgerTTLSeconds : ℕ := 3600

/-- Replay a sequence of appends (arrival order) onto an initial ledger,
keeping only the resulting list. -/
def replayAppends (init : Ledger) (events : List StoredTx) : Ledger :=
  events.foldl (fun l e => (storeTransaction l e).1) init

/-- `PatternDetector._get_recent_transactions`: read the whole Redis
list (`LRANGE key 0 -1`, newest first) and keep the entries with
`datetime.fromisoformat(tx.timestamp) > now - timedelta(hours=hours)`
(strict comparison). -/
def getRecentTransactions (ledger : Ledger) (now : ℚ) (hours : ℚ) : List StoredTx :=
  ledger.filter (fun tx => now - hours * 3600 < tx.timestamp)

/-- The trader categories treated as tracked "alpha" categories by the
detectors (`alpha_trader_types` in `pattern_detector.py`). -/
def alphaTraderTypes : List String :=
  ["Insider", "Alpha Trader", "Volume Leader", "Consistent Performer"]

/-- The 1-hour slice of the window used by `_check_alpha_confluence`
(`recent_txs`). -/
def confluenceRecent (transactions : List StoredTx) (now : ℚ) : List StoredTx :=
  transactions.filter (fun tx => now - 3600 < tx.timestamp)

/-- Distinct tracked-category buyer wallets in the 1-hour slice
(`alpha_buyers`, a Python `set`; modelled as the deduplicated list of
wallets). -/
def alphaBuyers (transactions : List StoredTx) (now : ℚ) : List String :=
  (((confluenceRecent transactions now).filter
      (fun tx => decide (tx.trader_type ∈ alphaTraderTypes) && decide (tx.action = "buy"))).map
    (fun tx => tx.wallet)).dedup

/-- Distinct tracked-category seller wallets in the 1-hour slice
(`alpha_sellers`). -/
def alphaSellers (transactions : List StoredTx) (now : ℚ) : List String :=
  (((confluenceRecent transactions now).filter
      (fun tx => decide (tx.trader_type ∈ alphaTraderTypes) && decide (tx.action = "sell"))).map
    (fun tx => tx.wallet)).dedup

/-- `buy_volume`: summed USD size of tracked-category buys in the
1-hour slice. -/
def buyVolume (transactions : List StoredTx) (now : ℚ) : ℚ :=
  (((confluenceRecent transactions now).filter
      (fun tx => decide (tx.trader_type ∈ alphaTraderTypes) && decide (tx.action = "buy"))).map
    (fun tx => tx.amount_usd)).sum

/-- `sell_volume`: summed USD size of tracked-category sells in the
1-hour slice. -/
def sellVolume (transactions : List StoredTx) (now : ℚ) : ℚ :=
  (((confluenceRecent transactions now).filter
      (fun tx => decide (tx.trader_type ∈ alphaTraderTypes) && decide (tx.action = "sell"))).map
    (fun tx => tx.amount_usd)).sum

/-- `net_flow = buy_volume - sell_volume`. -/
def netFlow (transactions : List StoredTx) (now : ℚ) : ℚ :=
  buyVolume transactions now - sellVolume transactions now

/-- `recent_txs[0].get('market_cap', 0) if recent_txs else 0`: the
market cap carried by the head (most recently stored entry) of the
1-hour slice. -/
def windowMarketCap (transactions : List StoredTx) (now : ℚ) : ℚ :=
  ((confluenceRecent transactions now).head?.map (fun tx => tx.market_cap)).getD 0

/-- The size-aware minimum-flow threshold of `_check_alpha_confluence`:
`max(2000, 1% of cap)` under $1M, `max(5000, 0.5% of cap)` for
$1M–$10M, `max(10000, 0.3% of cap)` above, and $5,000 when no market
cap is known (`market_cap > 0` false). -/
def minFlowThreshold (market_cap : ℚ) : ℚ :=
  if 0 < market_cap then
    if market_cap < 1000000 then max 2000 (market_cap * (1 / 100))
    else if market_cap < 10000000 then max 5000 (market_cap * (5 / 1000))
    else max 10000 (market_cap * (3 / 1000))
  else 5000

/-- Direction of a confluence finding. -/
inductive Direction where
  | buy
  | sell
  deriving DecidableEq, Repr

/-- The content of the string returned by `_check_alpha_confluence`
when it fires: direction, number of distinct same-direction tracked
wallets, and the (absolute) net flow printed in the message. -/
structure ConfluenceFinding where
  direction : Direction
  walletCount : ℕ
  netAmount : ℚ
  deriving DecidableEq, Repr

/-- `PatternDetector._check_alpha_confluence`: fires BUY when
`abs(net_flow) >= min_flow_threshold`, `net_flow > 0` and at least 3
distinct tracked-category buyers; fires SELL when
`abs(net_flow) >= min_flow_threshold`, `net_flow < 0` and at least 3
distinct tracked-category sellers; otherwise returns `None`. -/
def checkAlphaConfluence (transactions : List StoredTx) (now : ℚ) : Option ConfluenceFinding :=
  let net := netFlow transactions now
  let threshold := minFlowThreshold (windowMarketCap transactions now)
  if |net| ≥ threshold then
    if net > 0 ∧ (alphaBuyers transactions now).length ≥ 3 then
      some ⟨Direction.buy, (alphaBuyers transactions now).length, net⟩
    else if net < 0 ∧ (alphaSellers transactions now).length ≥ 3 then
      some ⟨Direction.sell, (alphaSellers transactions now).length, |net|⟩
    else none
  else none

/-- The 2-hour retention window (in seconds) that
`_check_sequence_pattern` filters on (`timedelta(hours=2)`), the
longest window any detector reads. -/
def sequenceWindowSeconds : ℚ := 7200

/-- The exclusion list the sequence detector applies to follower
candidates: `tx['trader_type'] not in ['Alpha Traders', 'Alpha']`
(verbatim from `_check_sequence_pattern`). -/
def sequenceExclusionTypes : List String := ["Alpha Traders", "Alpha"]

/-- The content of the string returned by `_check_sequence_pattern`
when it fires: the anchor's action, the number of distinct follower
wallets, and the follower trader types printed in the message. -/
structure SequenceFinding where
  action : String
  followerCount : ℕ
  followerTypes : List String
  deriving DecidableEq, Repr

/-- `PatternDetector._check_sequence_pattern`: inside the 2-hour slice
sorted by timestamp (Python `list.sort` is stable; modelled by the
stable `insertionSort`), take the earliest tracked-category action as
the anchor; followers are entries strictly more than 5 minutes after
the anchor, with the same action, whose `trader_type` is not in
`sequenceExclusionTypes`; fires when at least 2 distinct follower
wallets exist. -/
def checkSequencePattern (transactions : List StoredTx) (now : ℚ) : Option SequenceFinding :=
  let recentTxs := transactions.filter (fun tx => now - sequenceWindowSeconds < tx.timestamp)
  let sorted := List.insertionSort (fun a b => a.timestamp ≤ b.timestamp) recentTxs
  match sorted.find? (fun tx => decide (tx.trader_type ∈ alphaTraderTypes)) with
  | none => none
  | some anchor =>
      let subsequent := sorted.filter (fun tx =>
        decide (anchor.timestamp + 300 < tx.timestamp) &&
        decide (tx.trader_type ∉ sequenceExclusionTypes) &&
        decide (tx.action = anchor.action))
      let uniqueFollowers := (subsequent.map (fun tx => tx.wallet)).dedup
      if uniqueFollowers.length ≥ 2 then
        some ⟨anchor.action, uniqueFollowers.length,
              (subsequent.map (fun tx => tx.trader_type)).dedup⟩
      else none

/-- State of `TelegramRateLimiter`: two deques of send timestamps,
oldest first (`deque.append` adds at the right, `popleft` removes at
the left). -/
structure RateLimiterState where
  second_window : List ℚ
  minute_window : List ℚ
  deriving DecidableEq, Repr

/-- Fresh limiter (`TelegramRateLimiter.__init__`). -/
def initRateLimiter : RateLimiterState := ⟨[], []⟩

/-- `max_messages_per_second` default. -/
def maxPerSecond : ℕ := 3

/-- `max_messages_per_minute` default. -/
def maxPerMinute : ℕ := 20

/-- `TelegramRateLimiter.wait_if_needed`, called with `now` the value
of `datetime.now()` at entry. Prunes entries `< now - 1s` from the
second window and `< now - 60s` from the minute window (the
`popleft` loops on sorted deques), then: if the pruned second window
already holds `max_per_second` entries, sleeps a fixed 1.1 s; else if
the pruned minute window holds `max_per_minute` entries, sleeps
`61 - (now - oldest)` if positive. In every case it then appends `now`
— the timestamp bound BEFORE the sleep — to both windows. Returns the
new state and the time at which the function returns (when the send
happens). -/
def waitIfNeeded (st : RateLimiterState) (now : ℚ) : RateLimiterState × ℚ :=
  let sw := st.second_window.dropWhile (fun t => decide (t < now - 1))
  let mw := st.minute_window.dropWhile (fun t => decide (t < now - 60))
  let sendTime :=
    if sw.length ≥ maxPerSecond then now + 11 / 10
    else if mw.length ≥ maxPerMinute then
      match mw.head? with
      | some oldest => if 0 < 61 - (now - oldest) then now + (61 - (now - oldest)) else now
      | none => now
    else now
  (⟨sw ++ [now], mw ++ [now]⟩, sendTime)

/-- Run a sequence of `wait_if_needed` calls, one per attempted send;
`checkTimes` are the `datetime.now()` values observed at entry of each
call; the result is the list of send times. -/
def runLimiter : RateLimiterState → List ℚ → List ℚ
  | _, [] => []
  | st, t :: ts =>
      let r := waitIfNeeded st t
      r.2 :: runLimiter r.1 ts

/-- The calls are sequential: each call's entry time is no earlier
than the previous call's return (send) time, starting from `prev`. -/
def sequentialFrom : RateLimiterState → ℚ → List ℚ → Bool
  | _, _, [] => true
  | st, prev, t :: ts =>
      let r := waitIfNeeded st t
      decide (prev ≤ t) && sequentialFrom r.1 r.2 ts

/-- One `tokenTransfers` entry of a Helius webhook transaction that is
a JSON object, with the keys `parse_helius_webhook` reads from it
(`dict.get`, so every key may be absent). -/
structure TransferRec where
  mint : Option String
  fromUserAccount : Option String
  toUserAccount : Option String
  tokenAmount : ℚ
  tokenSymbol : Option String
  deriving DecidableEq, Repr

/-- One `nativeTransfers` entry (lamport amounts). -/
structure NativeTransfer where
  fromUserAccount : Option String
  toUserAccount : Option String
  amount : ℚ
  deriving DecidableEq, Repr

/-- One transaction record of the webhook payload. A `tokenTransfers`
element of value `none` models a list element that is not a JSON
object, on which `transfer.get('mint')` raises `AttributeError`; the
only enclosing handler is the `try`/`except` around the whole
delivery in `parse_helius_webhook`. -/
structure TxData where
  feePayer : Option String
  accountKeys : List String
  nativeTransfers : List NativeTransfer
  tokenTransfers : List (Option TransferRec)
  signature : String
  deriving DecidableEq, Repr

/-- The dictionary appended to `parsed_transactions` for one accepted
transfer. -/
structure ParsedTx where
  wallet_address : String
  token_address : String
  token_symbol : String
  is_buy : Bool
  sol_amount : ℚ
  token_amount : ℚ
  usd_value : ℚ
  price : ℚ
  current_market_cap : ℚ
  timestamp : ℚ
  signature : String
  deriving DecidableEq, Repr

/-- Result of `PriceService.calculate_market_cap_from_transaction`
(the fields `parse_helius_webhook` reads). -/
structure MarketData where
  price_per_token : ℚ
  market_cap : ℚ
  symbol : String
  deriving DecidableEq, Repr

/-- The wrapped-SOL mint address skipped by the normalizer. -/
def wrappedSolMint : String := "So11111111111111111111111111111111111111112"

/-- Wallet selection of `parse_helius_webhook`: the fee payer when
truthy (present and non-empty), else the first account key. -/
def walletAddressOf (tx : TxData) : Option String :=
  match tx.feePayer with
  | some w => if w = "" then tx.accountKeys.head? else some w
  | none => tx.accountKeys.head?

/-- SOL leaving the wallet, summed over native transfers
(`amount / 1e9`), used for buys. -/
def solSpent (wallet : String) (native : List NativeTransfer) : ℚ :=
  ((native.filter (fun nt => nt.fromUserAccount = some wallet)).map
    (fun nt => nt.amount / 1000000000)).sum

/-- SOL entering the wallet, summed over native transfers, used for
sells. -/
def solReceived (wallet : String) (native : List NativeTransfer) : ℚ :=
  ((native.filter (fun nt => nt.toUserAccount = some wallet)).map
    (fun nt => nt.amount / 1000000000)).sum

/-- The body of the transfer loop of `parse_helius_webhook` for one
well-formed (object-shaped) transfer: skip when `mint` is absent or
empty, when the mint is wrapped SOL, or when the wallet is neither the
receiver (`is_buy`) nor the sender (`is_sell`) of the transfer. The
SOL leg is summed on the out side for buys (the `is_buy` branch is
taken first when both hold), on the in side for sells. With a truthy
SOL price the USD value is `sol_amount * sol_price` and market data is
resolved; otherwise (`sol_price` `None` or `0`, or the resolver
raising) the fallback is `usd_value = sol_amount * 100`, price `0`,
market cap `0`, and the transfer's own `tokenSymbol` (default
`Unknown`). -/
def parseOneTransfer (wallet : String) (native : List NativeTransfer) (sig : String)
    (now : ℚ) (solPrice : Option ℚ) (marketData : String → ℚ → ℚ → ℚ → MarketData)
    (tr : TransferRec) : Option ParsedTx :=
  match tr.mint with
  | none => none
  | some token_address =>
      if token_address = "" then none
      else if token_address = wrappedSolMint then none
      else
        let is_buy : Bool := tr.toUserAccount = some wallet
        let is_sell : Bool := tr.fromUserAccount = some wallet
        if !(is_buy || is_sell) then none
        else
          let sol_amount : ℚ :=
            if is_buy then solSpent wallet native
            else if is_sell then solReceived wallet native
            else 0
          let sp := solPrice.getD 0
          if sp ≠ 0 then
            let md := marketData token_address sol_amount tr.tokenAmount sp
            some { wallet_address := wallet, token_address := token_address,
                   token_symbol := md.symbol, is_buy := is_buy,
                   sol_amount := sol_amount, token_amount := tr.tokenAmount,
                   usd_value := sol_amount * sp, price := md.price_per_token,
                   current_market_cap := md.market_cap, timestamp := now,
                   signature := sig }
          else
            some { wallet_address := wallet, token_address := token_address,
                   token_symbol := tr.tokenSymbol.getD "Unknown", is_buy := is_buy,
                   sol_amount := sol_amount, token_amount := tr.tokenAmount,
                   usd_value := sol_amount * 100, price := 0,
                   current_market_cap := 0, timestamp := now,
                   signature := sig }

/-- The transfer loop of `parse_helius_webhook` over one transaction's
`tokenTransfers`: accepted transfers are appended to `acc`; a
non-object element (`none`) raises, which the model reports as the
Boolean `true` in the result — the loop (and, through the outer
handler, the whole delivery) stops there, keeping what was parsed. -/
def parseTransfers (wallet : String) (native : List NativeTransfer) (sig : String)
    (now : ℚ) (solPrice : Option ℚ) (marketData : String → ℚ → ℚ → ℚ → MarketData) :
    List (Option TransferRec) → List ParsedTx → List ParsedTx × Bool
  | [], acc => (acc, false)
  | none :: _, acc => (acc, true)
  | some tr :: rest, acc =>
      match parseOneTransfer wallet native sig now solPrice marketData tr with
      | none => parseTransfers wallet native sig now solPrice marketData rest acc
      | some e => parseTransfers wallet native sig now solPrice marketData rest (acc ++ [e])

/-- `parse_helius_webhook` over the whole delivery: each transaction
is skipped when no truthy wallet address is found or the wallet is not
a tracked alpha address; an exception inside the transfer loop is
caught by the outer `try`/`except`, which returns the transactions
parsed so far and abandons the rest of the delivery. -/
def parseHeliusWebhook (alphaAddresses : List String) (now : ℚ) (solPrice : Option ℚ)
    (marketData : String → ℚ → ℚ → ℚ → MarketData) :
    List TxData → List ParsedTx → List ParsedTx
  | [], acc => acc
  | tx :: rest, acc =>
      match walletAddressOf tx with
      | none => parseHeliusWebhook alphaAddresses now solPrice marketData rest acc
      | some w =>
          if w = "" ∨ w ∉ alphaAddresses then
            parseHeliusWebhook alphaAddresses now solPrice marketData rest acc
          else
            let r := parseTransfers w tx.nativeTransfers tx.signature now solPrice
                marketData tx.tokenTransfers acc
            if r.2 then r.1
            else parseHeliusWebhook alphaAddresses now solPrice marketData rest r.1

/-- The stablecoin / wrapped-SOL exclusion set of
`_process_single_transaction`. -/
def excludedTokens : List String :=
  ["Es9vMFrzaCERmJfrF4H2FYD4KCoNkY11McCe8BenwNYB",
   "EPjFWdd5AufqSSqeM2qN1xzybapC8G4wEGGkZwyTDt1v",
   "So11111111111111111111111111111111111111112"]

/-- The gate of `_process_single_transaction` that decides whether a
parsed transaction reaches the ledger (and hence the detectors): the
$100 minimum-USD floor first, then the excluded-token set. -/
def passesLedgerGate (tx : ParsedTx) : Bool :=
  if tx.usd_value < 100 then false
  else if tx.token_address ∈ excludedTokens then false
  else true

/-- Modelled from the spec: the read behaviour claimed for
`recent(token, window)` — "all entries with `timestamp >= now - window`,
inclusive, in arrival order". Since the stored list is newest first,
arrival order is its reverse. Used only to compare the claim against
`getRecentTransactions`. -/
def recentSpecClaim (ledger : Ledger) (now : ℚ) (hours : ℚ) : List StoredTx :=
  (ledger.filter (fun tx => now - hours * 3600 ≤ tx.timestamp)).reverse

/-! Concrete inputs used as witnesses and counterexamples. -/

/-- The spec's scenario input: three distinct "Alpha Trader" wallets
each buy $2,000 inside 10 minutes with unknown market cap, plus a
fourth wallet of category "Unknown" buying $50,000 in the same window
(stored newest first). -/
def exConfluenceTxs : List StoredTx :=
  [⟨900, "WU", "buy", 50000, "Unknown", "TOK", 0⟩,
   ⟨300, "WA3", "buy", 2000, "Alpha Trader", "TOK", 0⟩,
   ⟨200, "WA2", "buy", 2000, "Alpha Trader", "TOK", 0⟩,
   ⟨100, "WA1", "buy", 2000, "Alpha Trader", "TOK", 0⟩]

/-- A 2-hour window in which every wallet is of a tracked category: an
Insider buys at t=1000 (the anchor), then an Alpha Trader and another
Insider buy more than 5 minutes later. -/
def exSequenceTxs : List StoredTx :=
  [⟨2100, "W3", "buy", 1000, "Insider", "TOK", 0⟩,
   ⟨2000, "W2", "buy", 1000, "Alpha Trader", "TOK", 0⟩,
   ⟨1000, "W1", "buy", 1000, "Insider", "TOK", 0⟩]

/-- A two-entry ledger: the first arrival has timestamp 0 (exactly on
the 1-hour boundary when read at `now = 3600`), the second has
timestamp 10; stored newest first. -/
def exLedgerC3 : Ledger :=
  [⟨10, "W2", "buy", 500, "Insider", "TOK", 0⟩,
   ⟨0, "W1", "buy", 400, "Insider", "TOK", 0⟩]

/-- Check times of seven back-to-back send attempts: four at t = 0,
then three at t = 1.1 s (the moment the fourth call returns from its
fixed 1.1 s sleep). -/
def burstCheckTimes : List ℚ := [0, 0, 0, 0, 11 / 10, 11 / 10, 11 / 10]

/-- A market-data resolver stub returning no price data and the symbol
`TOK` (the shape `calculate_market_cap_from_transaction` returns when
metadata is unavailable). -/
def mdZero : String → ℚ → ℚ → ℚ → MarketData := fun _ _ _ _ => ⟨0, 0, "TOK"⟩

/-- A token transfer on which the tracked wallet `W` is recorded as
both the sender and the receiver. -/
def exSelfTransfer : TransferRec := ⟨some "MintA", some "W", some "W", 50, some "TOK"⟩

/-- A well-formed transfer of `MintA` sent by wallet `W` (a sell). -/
def exTransferA : TransferRec := ⟨some "MintA", some "W", some "P", 10, some "A"⟩

/-- A well-formed transfer of `MintB` sent by wallet `W` (a sell). -/
def exTransferB : TransferRec := ⟨some "MintB", some "W", some "P", 10, some "B"⟩

/-- A delivery whose transaction carries transfer A, then a malformed
(non-object) transfer record, then transfer B. -/
def txWithBad : TxData := ⟨some "W", [], [], [some exTransferA, none, some exTransferB], "sig"⟩

/-- The same delivery without the malformed record. -/
def txWithoutBad : TxData := ⟨some "W", [], [], [some exTransferA, some exTransferB], "sig"⟩

/-- A transfer of `MintC` received by wallet `W` (a buy), with its own
`tokenSymbol` `FOO`. -/
def exFallbackTransfer : TransferRec := ⟨some "MintC", some "D", some "W", 1000, some "FOO"⟩

/-- One native transfer of 2 SOL (in lamports) out of wallet `W`. -/
def exNative : List NativeTransfer := [⟨some "W", some "P", 2000000000⟩]

/-! Theorems. Rational arithmetic must reduce in the kernel for
`decide`; the Batteries `Rat` operations are irreducible by default. -/

unseal Rat.add Rat.sub Rat.mul Rat.inv

/-- Trimming an already-trimmed suffix trims the same way. -/
theorem take200_append_take200 (xs ys : List StoredTx) :
    (xs ++ ys.take 200).take 200 = (xs ++ ys).take 200 := by
  rw [List.take_append_eq_append_take, List.take_append_eq_append_take, List.take_take]
  rw [Nat.min_eq_left (Nat.sub_le 200 xs.length)]

/-- Replaying appends onto a short-enough ledger yields the trimmed
reversed arrival sequence. -/
theorem replayAppends_eq (events : List StoredTx) (init : Ledger)
    (hle : init.length ≤ 200) :
    replayAppends init events = (events.reverse ++ init).take 200 := by
  induction events generalizing init with
  | nil => simp [replayAppends, List.take_of_length_le hle]
  | cons e es ih =>
      simp only [replayAppends, List.foldl_cons] at ih ⊢
      have hstep : (storeTransaction init e).1 = (e :: init).take 200 := rfl
      rw [hstep, ih ((e :: init).take 200) (le_trans (List.length_take_le _ _) le_rfl)]
      rw [take200_append_take200 es.reverse (e :: init)]
      rw [List.reverse_cons, List.append_assoc]
      rfl

/-- C6: starting from an empty ledger, any sequence of appends leaves
at most 200 entries, namely the most recent at-most-200 appends
(newest first); an append onto a full 200-entry ledger keeps the new
entry at the head and evicts the oldest (last) entry. -/
theorem ledger_bounded_holds_most_recent (events : List StoredTx) (l : Ledger)
    (tx : StoredTx) :
    (replayAppends [] events).length ≤ 200 ∧
    replayAppends [] events = events.reverse.take 200 ∧
    (l.length = 200 → (storeTransaction l tx).1 = tx :: l.dropLast) := by
  have h := replayAppends_eq events [] (by simp)
  refine ⟨?_, by simpa using h, ?_⟩
  · rw [h]
    exact List.length_take_le _ _
  · intro hl
    show (tx :: l).take 200 = tx :: l.dropLast
    rw [show (200 : ℕ) = 199 + 1 from rfl, List.take_succ_cons]
    rw [List.dropLast_eq_take, hl]

/-- C6 witness: appending to a concrete full 200-entry ledger evicts
exactly the oldest entry, and a replayed append sequence stays within
the bound. -/
theorem ledger_bounded_holds_most_recent_witness :
    (storeTransaction (List.replicate 200 (⟨0, "W", "buy", 100, "Insider", "T", 0⟩ : StoredTx))
        (⟨1, "V", "sell", 200, "Insider", "T", 0⟩ : StoredTx)).1 =
      (⟨1, "V", "sell", 200, "Insider", "T", 0⟩ : StoredTx) ::
        (List.replicate 200 (⟨0, "W", "buy", 100, "Insider", "T", 0⟩ : StoredTx)).dropLast ∧
    (replayAppends [] exConfluenceTxs).length ≤ 200 :=
  ⟨(ledger_bounded_holds_most_recent []
      (List.replicate 200 (⟨0, "W", "buy", 100, "Insider", "T", 0⟩ : StoredTx))
      (⟨1, "V", "sell", 200, "Insider", "T", 0⟩ : StoredTx)).2.2 (List.length_replicate 200 _),
   (ledger_bounded_holds_most_recent exConfluenceTxs [] (⟨1, "V", "sell", 200, "Insider", "T", 0⟩ : StoredTx)).1⟩

/-- C7 counterexample: an append sets the ledger TTL to 3600 seconds,
which is shorter than — not at least as long as — the 7200-second
window the sequence detector reads. -/
theorem ledgerTTL_counterexample :
    (storeTransaction [] (⟨0, "W", "buy", 100, "Insider", "T", 0⟩ : StoredTx)).2 = 3600 ∧
    sequenceWindowSeconds = 7200 ∧
    ¬ sequenceWindowSeconds ≤
        ((storeTransaction [] (⟨0, "W", "buy", 100, "Insider", "T", 0⟩ : StoredTx)).2 : ℚ) := by
  refine ⟨rfl, rfl, ?_⟩
  norm_num [storeTransaction, sequenceWindowSeconds]

/-- C7 (amended): every append sets/refreshes the ledger TTL to the
fixed 3600 seconds — equal to the 1-hour confluence window but only
half of the 2-hour sequence window. -/
theorem storeTransaction_ttl_one_hour (l : Ledger) (tx : StoredTx) :
    (storeTransaction l tx).2 = ledgerTTLSeconds ∧
    (ledgerTTLSeconds : ℚ) * 2 = sequenceWindowSeconds ∧
    ((ledgerTTLSeconds : ℚ)) < sequenceWindowSeconds := by
  refine ⟨rfl, ?_, ?_⟩ <;> norm_num [ledgerTTLSeconds, sequenceWindowSeconds]

/-- C4 counterexample: the threshold is not monotone across tiers — a
$900,000 cap yields a $9,000 threshold while the larger $1,000,000 cap
yields only $5,000. -/
theorem minFlowThreshold_not_monotone_counterexample :
    (0 : ℚ) < 900000 ∧ (900000 : ℚ) < 1000000 ∧
    minFlowThreshold 900000 = 9000 ∧ minFlowThreshold 1000000 = 5000 ∧
    ¬ minFlowThreshold 900000 ≤ minFlowThreshold 1000000 := by decide

/-- C4 (amended): the tier formulas are as specified — `max($2,000,
1% of cap)` under $1M, `max($5,000, 0.5% of cap)` from exactly $1M up
to $10M, `max($10,000, 0.3% of cap)` from $10M up, $5,000 when the cap
is unknown (zero) — and the threshold is monotone non-decreasing
within each tier, though not across tier boundaries. -/
theorem minFlowThreshold_tiers (c c₁ c₂ : ℚ) :
    minFlowThreshold 0 = 5000 ∧
    (0 < c → c < 1000000 → minFlowThreshold c = max 2000 (c * (1 / 100))) ∧
    (1000000 ≤ c → c < 10000000 → minFlowThreshold c = max 5000 (c * (5 / 1000))) ∧
    (10000000 ≤ c → minFlowThreshold c = max 10000 (c * (3 / 1000))) ∧
    (0 < c₁ → c₁ ≤ c₂ → c₂ < 1000000 → minFlowThreshold c₁ ≤ minFlowThreshold c₂) ∧
    (1000000 ≤ c₁ → c₁ ≤ c₂ → c₂ < 10000000 → minFlowThreshold c₁ ≤ minFlowThreshold c₂) ∧
    (10000000 ≤ c₁ → c₁ ≤ c₂ → minFlowThreshold c₁ ≤ minFlowThreshold c₂) := by
  have tier1 : ∀ x : ℚ, 0 < x → x < 1000000 → minFlowThreshold x = max 2000 (x * (1 / 100)) := by
    intro x h0 h1
    unfold minFlowThreshold
    rw [if_pos h0, if_pos h1]
  have tier2 : ∀ x : ℚ, 1000000 ≤ x → x < 10000000 →
      minFlowThreshold x = max 5000 (x * (5 / 1000)) := by
    intro x h0 h1
    unfold minFlowThreshold
    rw [if_pos (by linarith), if_neg (by linarith), if_pos h1]
  have tier3 : ∀ x : ℚ, 10000000 ≤ x → minFlowThreshold x = max 10000 (x * (3 / 1000)) := by
    intro x h0
    unfold minFlowThreshold
    rw [if_pos (by linarith), if_neg (by linarith), if_neg (by linarith)]
  refine ⟨by norm_num [minFlowThreshold], tier1 c, tier2 c, tier3 c, ?_, ?_, ?_⟩
  · intro h0 h12 h2
    rw [tier1 c₁ h0 (by linarith), tier1 c₂ (by linarith) h2]
    exact max_le_max le_rfl (by nlinarith)
  · intro h0 h12 h2
    rw [tier2 c₁ h0 (by linarith), tier2 c₂ (by linarith) h2]
    exact max_le_max le_rfl (by nlinarith)
  · intro h0 h12
    rw [tier3 c₁ h0, tier3 c₂ (by linarith)]
    exact max_le_max le_rfl (by nlinarith)

/-- C4 witness: a $500K cap gives the $5,000 threshold of the low tier
formula, and the middle tier is monotone between $2M and $9M. -/
theorem minFlowThreshold_tiers_witness :
    minFlowThreshold 500000 = 5000 ∧
    minFlowThreshold 2000000 ≤ minFlowThreshold 9000000 := by
  constructor
  · rw [(minFlowThreshold_tiers 500000 0 0).2.1 (by norm_num) (by norm_num)]
    norm_num
  · exact (minFlowThreshold_tiers 0 2000000 9000000).2.2.2.2.2.1
      (by norm_num) (by norm_num) (by norm_num)

/-- C3 counterexample: read at `now = 3600` with a 1-hour window, the
entry with timestamp exactly `now - window = 0` is excluded (the code
compares strictly), and the included entries come back newest first,
not in arrival order — the code's result differs from the claimed
one. -/
theorem getRecentTransactions_boundary_counterexample :
    getRecentTransactions exLedgerC3 3600 1 =
      [⟨10, "W2", "buy", 500, "Insider", "TOK", 0⟩] ∧
    recentSpecClaim exLedgerC3 3600 1 =
      [⟨0, "W1", "buy", 400, "Insider", "TOK", 0⟩,
       ⟨10, "W2", "buy", 500, "Insider", "TOK", 0⟩] ∧
    getRecentTransactions exLedgerC3 3600 1 ≠ recentSpecClaim exLedgerC3 3600 1 := by decide

/-- C3 (amended): the read returns exactly the stored entries with
`timestamp` strictly greater than `now - window` (boundary excluded),
keeping the stored order — newest first, the reverse of arrival order
— and leaves the ledger untouched. -/
theorem getRecentTransactions_strict_window_order (ledger : Ledger) (now hours : ℚ) :
    (∀ tx, tx ∈ getRecentTransactions ledger now hours ↔
      tx ∈ ledger ∧ now - hours * 3600 < tx.timestamp) ∧
    (getRecentTransactions ledger now hours).Sublist ledger := by
  refine ⟨?_, List.filter_sublist _⟩
  intro tx
  simp [getRecentTransactions, List.mem_filter]

/-- C1: the net-flow confluence detector emits a BUY finding iff the
net flow is positive, meets the size-aware threshold in absolute
value, and at least 3 distinct tracked-category buyers are present; a
SELL finding iff the net flow is negative, meets the threshold, and at
least 3 distinct tracked-category sellers are present; and it never
fires with fewer than 3 distinct same-direction tracked wallets. -/
theorem checkAlphaConfluence_fires_iff (txs : List StoredTx) (now : ℚ) :
    ((∃ f, checkAlphaConfluence txs now = some f ∧ f.direction = Direction.buy) ↔
      0 < netFlow txs now ∧
        minFlowThreshold (windowMarketCap txs now) ≤ |netFlow txs now| ∧
        3 ≤ (alphaBuyers txs now).length) ∧
    ((∃ f, checkAlphaConfluence txs now = some f ∧ f.direction = Direction.sell) ↔
      netFlow txs now < 0 ∧
        minFlowThreshold (windowMarketCap txs now) ≤ |netFlow txs now| ∧
        3 ≤ (alphaSellers txs now).length) ∧
    (∀ f, checkAlphaConfluence txs now = some f →
      (f.direction = Direction.buy → 3 ≤ (alphaBuyers txs now).length) ∧
      (f.direction = Direction.sell → 3 ≤ (alphaSellers txs now).length)) := by
  simp only [checkAlphaConfluence]
  split_ifs with h1 h2 h3
  · refine ⟨iff_of_true ⟨_, rfl, rfl⟩ ⟨h2.1, h1, h2.2⟩, iff_of_false ?_ ?_, ?_⟩
    · rintro ⟨f, hf, hdir⟩
      injection hf with hf
      rw [← hf] at hdir
      simp at hdir
    · rintro ⟨hneg, -, -⟩
      linarith [h2.1]
    · rintro f hf
      injection hf with hf
      refine ⟨fun _ => h2.2, fun hd => ?_⟩
      rw [← hf] at hd
      simp at hd
  · refine ⟨iff_of_false ?_ ?_, iff_of_true ⟨_, rfl, rfl⟩ ⟨h3.1, h1, h3.2⟩, ?_⟩
    · rintro ⟨f, hf, hdir⟩
      injection hf with hf
      rw [← hf] at hdir
      simp at hdir
    · rintro ⟨hpos, -, -⟩
      linarith [h3.1]
    · rintro f hf
      injection hf with hf
      refine ⟨fun hd => ?_, fun _ => h3.2⟩
      rw [← hf] at hd
      simp at hd
  · refine ⟨iff_of_false ?_ ?_, iff_of_false ?_ ?_, ?_⟩
    · rintro ⟨f, hf, -⟩
      simp at hf
    · rintro ⟨hpos, -, hcnt⟩
      exact h2 ⟨hpos, hcnt⟩
    · rintro ⟨f, hf, -⟩
      simp at hf
    · rintro ⟨hneg, -, hcnt⟩
      exact h3 ⟨hneg, hcnt⟩
    · rintro f hf
      simp at hf
  · refine ⟨iff_of_false ?_ ?_, iff_of_false ?_ ?_, ?_⟩
    · rintro ⟨f, hf, -⟩
      simp at hf
    · rintro ⟨-, hthr, -⟩
      exact h1 hthr
    · rintro ⟨f, hf, -⟩
      simp at hf
    · rintro ⟨-, hthr, -⟩
      exact h1 hthr
    · rintro f hf
      simp at hf

/-- C1 witness: on the spec's scenario — three distinct Alpha Trader
wallets buying $2,000 each with unknown cap, plus a $50,000 buy by an
untracked wallet — the detector fires a BUY finding with exactly the 3
tracked buyers and a $6,000 net, and the characterization yields the
3-buyer bound. -/
theorem checkAlphaConfluence_fires_iff_witness :
    checkAlphaConfluence exConfluenceTxs 3600 = some ⟨Direction.buy, 3, 6000⟩ ∧
    3 ≤ (alphaBuyers exConfluenceTxs 3600).length := by
  refine ⟨by decide, ?_⟩
  have h := (checkAlphaConfluence_fires_iff exConfluenceTxs 3600).1.mp
    ⟨⟨Direction.buy, 3, 6000⟩, by decide, rfl⟩
  exact h.2.2

/-- C5: evaluating the sequence detector on a window in which every
wallet belongs to a tracked category: the Insider anchor at t=1000 is
followed, more than 5 minutes later, by an Alpha Trader and another
Insider — both of tracked categories — yet the detector counts both as
followers and fires, because its exclusion list is the stale
`['Alpha Traders', 'Alpha']` rather than the tracked-category set. -/
theorem checkSequencePattern_fires_on_tracked_followers :
    checkSequencePattern exSequenceTxs 3000 =
      some ⟨"buy", 2, ["Alpha Trader", "Insider"]⟩ ∧
    exSequenceTxs.all (fun tx => decide (tx.trader_type ∈ alphaTraderTypes)) = true ∧
    "Alpha Trader" ∉ sequenceExclusionTypes ∧ "Insider" ∉ sequenceExclusionTypes := by decide

/-- C2: seven sequential send attempts — four at t=0, three more the
moment the fourth returns at t=1.1s — produce sends at times
0, 0, 0, 1.1, 1.1, 1.1, 1.1: four sends inside the rolling 1-second
window ending at t=1.1, exceeding the 3-per-second cap, because
`wait_if_needed` records the pre-sleep timestamp and never re-checks
after sleeping. -/
theorem rateLimiter_burst_exceeds_per_second_cap :
    sequentialFrom initRateLimiter 0 burstCheckTimes = true ∧
    runLimiter initRateLimiter burstCheckTimes =
      [0, 0, 0, 11 / 10, 11 / 10, 11 / 10, 11 / 10] ∧
    maxPerSecond <
      (runLimiter initRateLimiter burstCheckTimes).countP
        (fun s => decide (1 / 10 < s) && decide (s ≤ 11 / 10)) := by decide

/-- C8 counterexample: with the malformed (non-object) record between
transfers A and B, the delivery yields only the event for A — the
well-formed sibling B is dropped — while the same delivery without the
bad record yields both events. -/
theorem parseHeliusWebhook_bad_record_counterexample :
    txWithBad.tokenTransfers = [some exTransferA, none, some exTransferB] ∧
    txWithoutBad.tokenTransfers = [some exTransferA, some exTransferB] ∧
    (parseHeliusWebhook ["W"] 0 (some 150) mdZero [txWithBad] []).length = 1 ∧
    (parseHeliusWebhook ["W"] 0 (some 150) mdZero [txWithoutBad] []).length = 2 := by decide

/-- C8 (amended): a transfer record that is an object missing its
`mint` is skipped individually, the loop continuing with its siblings;
but a transfer record of unexpected (non-object) shape raises, and the
delivery-wide handler stops processing: the events parsed before the
bad record are kept and every later transfer of the delivery is
dropped. -/
theorem parseTransfers_skip_missing_abort_malformed
    (w : String) (native : List NativeTransfer) (sig : String) (now : ℚ)
    (sp : Option ℚ) (md : String → ℚ → ℚ → ℚ → MarketData)
    (tr : TransferRec) (xs ys : List (Option TransferRec)) (acc : List ParsedTx) :
    (tr.mint = none →
      parseTransfers w native sig now sp md (some tr :: xs) acc =
        parseTransfers w native sig now sp md xs acc) ∧
    ((parseTransfers w native sig now sp md xs acc).2 = false →
      parseTransfers w native sig now sp md (xs ++ none :: ys) acc =
        ((parseTransfers w native sig now sp md xs acc).1, true)) := by
  constructor
  · intro hm
    have hpo : parseOneTransfer w native sig now sp md tr = none := by
      unfold parseOneTransfer
      rw [hm]
    simp [parseTransfers, hpo]
  · induction xs generalizing acc with
    | nil => intro h; rfl
    | cons x xs ih =>
        intro h
        match x with
        | none => simp [parseTransfers] at h
        | some tr' =>
            simp only [List.cons_append, parseTransfers] at h ⊢
            cases hpo : parseOneTransfer w native sig now sp md tr' with
            | none =>
                simp only [hpo] at h ⊢
                exact ih _ h
            | some e =>
                simp only [hpo] at h ⊢
                exact ih _ h

/-- C8 witness: on concrete transfers, a mint-less record is skipped
with its sibling still parsed, and a non-object record aborts the rest
of the list, keeping the event parsed before it. -/
theorem parseTransfers_skip_missing_abort_malformed_witness :
    parseTransfers "W" [] "sig" 0 (some 150) mdZero
        (some ⟨none, some "W", some "P", 5, none⟩ :: [some exTransferA]) [] =
      parseTransfers "W" [] "sig" 0 (some 150) mdZero [some exTransferA] [] ∧
    parseTransfers "W" [] "sig" 0 (some 150) mdZero
        ([some exTransferA] ++ none :: [some exTransferB]) [] =
      ((parseTransfers "W" [] "sig" 0 (some 150) mdZero [some exTransferA] []).1, true) := by
  have h := parseTransfers_skip_missing_abort_malformed "W" [] "sig" 0 (some 150) mdZero
    ⟨none, some "W", some "P", 5, none⟩ [some exTransferA] [some exTransferB] []
  exact ⟨h.1 rfl, h.2 (by decide)⟩

/-- C9 counterexample: on a transfer where the tracked wallet `W` is
recorded as both the sender and the receiver, the normalizer still
creates a SwapEvent (classified as a buy) instead of skipping the
direction-ambiguous transfer. -/
theorem parseOneTransfer_self_transfer_counterexample :
    exSelfTransfer.fromUserAccount = some "W" ∧
    exSelfTransfer.toUserAccount = some "W" ∧
    (parseOneTransfer "W" [] "sig" 0 (some 150) mdZero exSelfTransfer).isSome = true := by decide

/-- C9 (amended): for a transfer with a usable mint, a SwapEvent is
constructed iff the tracked wallet is the receiver or the sender —
inclusively, not strictly — and the event is classified as a buy
exactly when the wallet is the receiver, so a transfer whose sender
and receiver are both the wallet yields a buy event. -/
theorem parseOneTransfer_direction_inclusive
    (w : String) (native : List NativeTransfer) (sig : String) (now : ℚ)
    (sp : Option ℚ) (md : String → ℚ → ℚ → ℚ → MarketData) (tr : TransferRec)
    (m : String) (hm : tr.mint = some m) (hne : m ≠ "") (hws : m ≠ wrappedSolMint) :
    ((parseOneTransfer w native sig now sp md tr).isSome = true ↔
      (tr.toUserAccount = some w ∨ tr.fromUserAccount = some w)) ∧
    (∀ e, parseOneTransfer w native sig now sp md tr = some e →
      (e.is_buy = true ↔ tr.toUserAccount = some w)) := by
  unfold parseOneTransfer
  simp only [hm]
  rw [if_neg hne, if_neg hws]
  by_cases hb : tr.toUserAccount = some w <;> by_cases hs : tr.fromUserAccount = some w <;>
    by_cases hsp : sp.getD 0 ≠ 0 <;>
    simp [hb, hs, hsp]

/-- C9 witness: applying the direction characterization to the
self-transfer input shows an event is created and classified as a
buy. -/
theorem parseOneTransfer_direction_inclusive_witness :
    (parseOneTransfer "W" [] "sig" 0 (some 150) mdZero exSelfTransfer).isSome = true ∧
    (parseOneTransfer "W" [] "sig" 0 (some 150) mdZero exSelfTransfer).map
      (fun e => e.is_buy) = some true := by
  have h := parseOneTransfer_direction_inclusive "W" [] "sig" 0 (some 150) mdZero
    exSelfTransfer "MintA" rfl (by decide) (by decide)
  exact ⟨h.1.mpr (Or.inl rfl), by decide⟩

/-- The ledger gate passes exactly when the USD value reaches the $100
floor and the token is not excluded. -/
theorem passesLedgerGate_iff (e : ParsedTx) :
    passesLedgerGate e = true ↔
      (100 ≤ e.usd_value ∧ e.token_address ∉ excludedTokens) := by
  unfold passesLedgerGate
  split_ifs with h1 h2
  · refine iff_of_false (by simp) ?_
    rintro ⟨hge, -⟩
    linarith
  · refine iff_of_false (by simp) ?_
    rintro ⟨-, hmem⟩
    exact hmem h2
  · exact iff_of_true (by simp) ⟨by linarith, h2⟩

/-- C10: when no SOL price is available, the normalizer still emits
the event, pricing it at the hardcoded fallback of $100 per SOL
(`usd_value = sol_amount * 100`, not zero), with market cap 0, token
price 0 and the transfer's own symbol (default `Unknown`); the $100
minimum-USD floor gating ledger entry is then evaluated against this
fabricated USD value. -/
theorem parseOneTransfer_no_sol_price_fallback
    (w : String) (native : List NativeTransfer) (sig : String) (now : ℚ)
    (md : String → ℚ → ℚ → ℚ → MarketData) (tr : TransferRec) (m : String)
    (hm : tr.mint = some m) (hne : m ≠ "") (hws : m ≠ wrappedSolMint)
    (hdir : tr.toUserAccount = some w ∨ tr.fromUserAccount = some w) :
    ∃ e, parseOneTransfer w native sig now none md tr = some e ∧
      e.sol_amount = (if tr.toUserAccount = some w then solSpent w native
                      else solReceived w native) ∧
      e.usd_value = e.sol_amount * 100 ∧
      e.current_market_cap = 0 ∧
      e.price = 0 ∧
      e.token_symbol = tr.tokenSymbol.getD "Unknown" ∧
      e.token_address = m ∧
      (passesLedgerGate e = true ↔ (100 ≤ e.usd_value ∧ m ∉ excludedTokens)) := by
  unfold parseOneTransfer
  simp only [hm]
  rw [if_neg hne, if_neg hws]
  by_cases hb : tr.toUserAccount = some w
  · simp [hb]
    rw [passesLedgerGate_iff]
    dsimp only
    constructor
    · rintro ⟨h1, h2⟩
      exact ⟨by linarith, h2⟩
    · rintro ⟨h1, h2⟩
      exact ⟨by linarith, h2⟩
  · have hs : tr.fromUserAccount = some w := hdir.resolve_left hb
    simp [hb, hs]
    rw [passesLedgerGate_iff]
    dsimp only
    constructor
    · rintro ⟨h1, h2⟩
      exact ⟨by linarith, h2⟩
    · rintro ⟨h1, h2⟩
      exact ⟨by linarith, h2⟩

/-- C10 witness: a 2-SOL buy parsed with no SOL price available yields
the event priced at the $100-per-SOL fallback (USD value $200, market
cap 0, symbol `FOO`), and that fabricated USD value passes the $100
ledger floor. -/
theorem parseOneTransfer_no_sol_price_fallback_witness :
    (∃ e, parseOneTransfer "W" exNative "sig" 0 none mdZero exFallbackTransfer = some e ∧
      e.usd_value = e.sol_amount * 100) ∧
    parseOneTransfer "W" exNative "sig" 0 none mdZero exFallbackTransfer =
      some ⟨"W", "MintC", "FOO", true, 2, 1000, 200, 0, 0, 0, "sig"⟩ ∧
    passesLedgerGate ⟨"W", "MintC", "FOO", true, 2, 1000, 200, 0, 0, 0, "sig"⟩ = true := by
  obtain ⟨e, he, hsol, husd, hcap, hprice, hsym, haddr, hgate⟩ :=
    parseOneTransfer_no_sol_price_fallback "W" exNative "sig" 0 mdZero exFallbackTransfer
      "MintC" rfl (by decide) (by decide) (Or.inl rfl)
  exact ⟨⟨e, he, husd⟩, by decide, by decide⟩

end OCMHub
